import Mathlib

/-!
Shallow embedding of the Employee Management System server routes:
the role-hierarchy helper `canManageRole` and the `/SignUp`, `/me`,
`/users` listing, create, update and delete handlers, together with
proofs of the specification claims about them.  The Mongo `Users`
collection is modelled as a list of records, document ids as `Nat`,
and the external `bcrypt.hash` as an explicit function parameter.
-/

/-- The five values of the `role` enum in the user schema. -/
inductive Role where
  | user
  | tl
  | manager
  | admin
  | master
deriving DecidableEq, Repr

/-- The rank table `roleHierarchy` inside the server helper `canManageRole`. -/
def roleHierarchy : Role → Nat
  | .master => 4
  | .admin => 3
  | .manager => 2
  | .tl => 1
  | .user => 0

/-- Server helper `canManageRole`: a strict rank comparison
`roleHierarchy[currentUserRole] > roleHierarchy[targetRole]`, with no
special branch for any role. -/
def canManageRole (currentUserRole targetRole : Role) : Bool :=
  decide (roleHierarchy targetRole < roleHierarchy currentUserRole)

/-- The two values of the `status` enum in the user schema. -/
inductive Status where
  | active
  | inactive
deriving DecidableEq, Repr

/-- A stored user document: the fields of the Mongoose user schema that the
routes read or write (the `createdAt`/`updatedAt` bookkeeping timestamps are
omitted).  Document ids are modelled as `Nat`. -/
structure UserRecord where
  id : Nat
  firstName : String
  lastName : String
  email : String
  password : String
  phoneNum : String
  role : Role
  tlId : Option Nat
  managerId : Option Nat
  status : Status
  department : Option String
  position : Option String
deriving DecidableEq, Repr

/-- A user document as rendered by `.select('-password')`: every stored
field except the password hash. -/
structure PublicUser where
  id : Nat
  firstName : String
  lastName : String
  email : String
  phoneNum : String
  role : Role
  tlId : Option Nat
  managerId : Option Nat
  status : Status
  department : Option String
  position : Option String
deriving DecidableEq, Repr

/-- Projection `.select('-password')` on one document. -/
def sanitize (r : UserRecord) : PublicUser :=
  { id := r.id, firstName := r.firstName, lastName := r.lastName,
    email := r.email, phoneNum := r.phoneNum, role := r.role,
    tlId := r.tlId, managerId := r.managerId, status := r.status,
    department := r.department, position := r.position }

/-- The `Users` collection: the directory state is the list of stored
documents. -/
abbrev Directory := List UserRecord

/-- Query `Users.findById(i)`. -/
def findById (dir : Directory) (i : Nat) : Option UserRecord :=
  dir.find? (fun r => r.id == i)

/-- Query `Users.findOne({ email })`. -/
def findByEmail (dir : Directory) (e : String) : Option UserRecord :=
  dir.find? (fun r => r.email == e)

/-- The HTTP error responses the routes return (status class and message). -/
inductive ApiError where
  | notFound (msg : String)
  | badRequest (msg : String)
  | forbidden (msg : String)
deriving DecidableEq, Repr

/-- The query built by `GET /api/users` for the current user and then run as
`Users.find(query).select('-password')`.  A `master` actor keeps the empty
query; `admin` filters on role; `manager` takes the `$or` of direct reports
(`managerId == actor.id`) and records whose `tlId` lies among the ids of ALL
the actor's direct reports (the inner query has no role filter); `tl`
filters on `tlId`; an actor of role `user` matches none of the branches, so
the query stays empty and the whole collection is returned. -/
def visibleUsers (dir : Directory) (currentUser : UserRecord) : List UserRecord :=
  if currentUser.role == Role.master then
    dir
  else if currentUser.role == Role.admin then
    dir.filter (fun r =>
      r.role == Role.manager || r.role == Role.tl || r.role == Role.user)
  else if currentUser.role == Role.manager then
    let tlIds := (dir.filter (fun r => r.managerId == some currentUser.id)).map (·.id)
    dir.filter (fun r =>
      r.managerId == some currentUser.id ||
      (match r.tlId with
       | some t => tlIds.contains t
       | none => false))
  else if currentUser.role == Role.tl then
    dir.filter (fun r => r.tlId == some currentUser.id)
  else
    dir

/-- Endpoint `GET /api/users`: resolve the authenticated actor, then return
their role-scoped view of the collection with passwords stripped. -/
def getUsers (dir : Directory) (actorId : Nat) : Except ApiError (List PublicUser) :=
  match findById dir actorId with
  | none => .error (.notFound "User not found")
  | some currentUser => .ok ((visibleUsers dir currentUser).map sanitize)

/-- Endpoint `GET /api/me`: the actor's own record, password stripped. -/
def getMe (dir : Directory) (actorId : Nat) : Except ApiError PublicUser :=
  match findById dir actorId with
  | none => .error (.notFound "User not found")
  | some u => .ok (sanitize u)

/-- Endpoint `GET /api/users/:id`: fetch any record by id, password
stripped.  Beyond authentication the handler performs no check of the
requesting actor. -/
def getUserById (dir : Directory) (targetId : Nat) : Except ApiError PublicUser :=
  match findById dir targetId with
  | none => .error (.notFound "User not found")
  | some u => .ok (sanitize u)

/-- Request body of `POST /api/SignUp`. -/
structure SignUpBody where
  firstName : String
  lastName : String
  email : String
  password : String
  phoneNum : String
deriving DecidableEq, Repr

/-- Endpoint `POST /api/SignUp`: unauthenticated.  After the
all-fields-present and duplicate-email checks it inserts a record carrying
the schema defaults `role: user`, `tlId: null`, `managerId: null`,
`status: active`.  `hash` stands for the external `bcrypt.hash`, `freshId`
for the id Mongo assigns.  Returns the directory after the call and the
response (the HTTP body exposes a token plus the new user's name and
email; the `ok` payload here carries the sanitized record). -/
def signUp (hash : String → String) (dir : Directory) (freshId : Nat)
    (b : SignUpBody) : Directory × Except ApiError PublicUser :=
  if b.firstName == "" || b.lastName == "" || b.email == "" ||
      b.password == "" || b.phoneNum == "" then
    (dir, .error (.badRequest "All fields are required"))
  else if (findByEmail dir b.email).isSome then
    (dir, .error (.badRequest "Email already exists"))
  else
    let newUser : UserRecord :=
      { id := freshId, firstName := b.firstName, lastName := b.lastName,
        email := b.email, password := hash b.password, phoneNum := b.phoneNum,
        role := Role.user, tlId := none, managerId := none,
        status := Status.active, department := none, position := none }
    (dir ++ [newUser], .ok (sanitize newUser))

/-- Request body of `POST /api/users`. -/
structure CreateBody where
  firstName : String
  lastName : String
  email : String
  password : String
  phoneNum : String
  role : Role
  department : Option String
  position : Option String
  tlId : Option Nat
  managerId : Option Nat
deriving DecidableEq, Repr

/-- Endpoint `POST /api/users`: resolve the actor, require
`canManageRole(actor.role, body.role)`, validate the hierarchy links,
reject duplicate emails, then insert the record (status defaults to
`active`).  Returns the directory after the call and the response. -/
def createUser (hash : String → String) (dir : Directory) (actorId freshId : Nat)
    (b : CreateBody) : Directory × Except ApiError PublicUser :=
  match findById dir actorId with
  | none => (dir, .error (.notFound "User not found"))
  | some currentUser =>
    if !canManageRole currentUser.role b.role then
      (dir, .error (.forbidden "You don\x27t have permission to create users with this role"))
    else if b.role == Role.user && b.tlId == none then
      (dir, .error (.badRequest "Users must have a Team Leader"))
    else if (b.role == Role.user || b.role == Role.tl) && b.managerId == none then
      (dir, .error (.badRequest "Users and Team Leaders must have a Manager"))
    else if (findByEmail dir b.email).isSome then
      (dir, .error (.badRequest "Email already exists"))
    else
      let newUser : UserRecord :=
        { id := freshId, firstName := b.firstName, lastName := b.lastName,
          email := b.email, password := hash b.password, phoneNum := b.phoneNum,
          role := b.role, tlId := b.tlId, managerId := b.managerId,
          status := Status.active, department := b.department, position := b.position }
      (dir ++ [newUser], .ok (sanitize newUser))

/-- Request body of `PUT /api/users/:id`.  An outer `none` is an absent
field (deleted from the `updates` object, so left unchanged); for
`department`, `position`, `tlId` and `managerId` the inner `Option` is the
stored value, so an explicit null can be written. -/
structure UpdateBody where
  firstName : Option String
  lastName : Option String
  email : Option String
  phoneNum : Option String
  role : Option Role
  department : Option (Option String)
  position : Option (Option String)
  tlId : Option (Option Nat)
  managerId : Option (Option Nat)
  status : Option Status
deriving DecidableEq, Repr

/-- The `$set: updates` document applied to one stored record: every
present body field overwrites the stored one. -/
def applyUpdates (r : UserRecord) (b : UpdateBody) : UserRecord :=
  { r with
    firstName := b.firstName.getD r.firstName,
    lastName := b.lastName.getD r.lastName,
    email := b.email.getD r.email,
    phoneNum := b.phoneNum.getD r.phoneNum,
    role := b.role.getD r.role,
    department := b.department.getD r.department,
    position := b.position.getD r.position,
    tlId := b.tlId.getD r.tlId,
    managerId := b.managerId.getD r.managerId,
    status := b.status.getD r.status }

/-- Endpoint `PUT /api/users/:id`: the manage-permission check runs only
when the actor is not the target, and a role change is re-checked only when
the new role differs from the stored one AND the update is not a
self-update.  Returns the directory after the call and the response (the
updated record, password stripped). -/
def updateUser (dir : Directory) (actorId targetId : Nat) (b : UpdateBody) :
    Directory × Except ApiError PublicUser :=
  match findById dir actorId with
  | none => (dir, .error (.notFound "User not found"))
  | some currentUser =>
    match findById dir targetId with
    | none => (dir, .error (.notFound "User to update not found"))
    | some userToUpdate =>
      if actorId != targetId && !canManageRole currentUser.role userToUpdate.role then
        (dir, .error (.forbidden "You don\x27t have permission to update this user"))
      else if (match b.role with
               | some newRole =>
                   newRole != userToUpdate.role && actorId != targetId &&
                     !canManageRole currentUser.role newRole
               | none => false) then
        (dir, .error (.forbidden "You don\x27t have permission to assign this role"))
      else
        (dir.map (fun r => if r.id == targetId then applyUpdates r b else r),
         .ok (sanitize (applyUpdates userToUpdate b)))

/-- The subordinate check of `DELETE /api/users/:id`:
`Users.findOne({ $or: [{ tlId: target }, { managerId: target }] })`, a
query over the full collection, not over any scoped view. -/
def hasDependents (dir : Directory) (targetId : Nat) : Bool :=
  dir.any (fun r => r.tlId == some targetId || r.managerId == some targetId)

/-- Endpoint `DELETE /api/users/:id`: resolve actor and target, require
`canManageRole(actor.role, target.role)`, refuse when the target has
subordinates anywhere in the collection, otherwise remove the record.
Returns the directory after the call and the response. -/
def deleteUser (dir : Directory) (actorId targetId : Nat) :
    Directory × Except ApiError String :=
  match findById dir actorId with
  | none => (dir, .error (.notFound "User not found"))
  | some currentUser =>
    match findById dir targetId with
    | none => (dir, .error (.notFound "User to delete not found"))
    | some userToDelete =>
      if !canManageRole currentUser.role userToDelete.role then
        (dir, .error (.forbidden "You don\x27t have permission to delete this user"))
      else if hasDependents dir targetId then
        (dir, .error (.badRequest "Cannot delete user with subordinates. Reassign subordinates first."))
      else
        (dir.filter (fun r => r.id != targetId), .ok "User deleted successfully")

/-- Builder for the concrete records used in test directories: fixed
personal fields, varying id, role and ownership links. -/
def mkUser (i : Nat) (role : Role) (managerId tlId : Option Nat) : UserRecord :=
  { id := i, firstName := "F", lastName := "L", email := toString i,
    password := "pw", phoneNum := "p", role := role,
    tlId := tlId, managerId := managerId, status := Status.active,
    department := none, position := none }

/-- C1 counterexample: the claim requires `canManage(master, master) = true`
through a master override, but the server helper is a bare strict-rank
comparison, so a master cannot manage another master. -/
theorem c1_master_master_denied : canManageRole Role.master Role.master = false := by
  decide

/-- C1 (amended): for every pair of roles, `canManageRole r1 r2` is true iff
`rank r1 > rank r2`, with NO master override — in particular
`canManageRole master master = false`. -/
theorem c1_canManage_iff_rank_gt :
    ∀ r1 r2 : Role, canManageRole r1 r2 = true ↔ roleHierarchy r2 < roleHierarchy r1 := by
  intro r1 r2
  simp [canManageRole]

/-- Concrete two-record directory: a master (id 1) and a user (id 2). -/
def c2dir : Directory :=
  [mkUser 1 Role.master none none, mkUser 2 Role.user none none]

/-- C2: the directory listing invoked by the user-role actor (id 2) returns
the WHOLE directory, not the empty set: the role filter of `GET /api/users`
has no `user` branch, so the Mongo query stays empty. -/
theorem c2_user_sees_everything :
    getUsers c2dir 2 = Except.ok (c2dir.map sanitize) ∧ c2dir.map sanitize ≠ [] :=
  ⟨rfl, by decide⟩

/-- C6: self-deletion is always denied and leaves the directory unchanged,
for every directory and every id (hence every role, master included): the
rank check `canManageRole r r` is false for every role. -/
theorem c6_self_delete_denied (dir : Directory) (i : Nat) :
    (deleteUser dir i i).1 = dir ∧ ∀ m, (deleteUser dir i i).2 ≠ Except.ok m := by
  unfold deleteUser
  cases h : findById dir i with
  | none => simp
  | some u => simp [canManageRole]

/-- Definition written from the spec's words for the manager branch of the
directory listing (the claim's formula, for comparison with
`visibleUsers`): direct reports unioned with records whose `tlId` lies in
the set of ids of records with role `tl` AND `managerId == actor.id`. -/
def specVisibleManager (dir : Directory) (actor : UserRecord) : List UserRecord :=
  let tlIds := (dir.filter (fun r =>
    r.managerId == some actor.id && r.role == Role.tl)).map (·.id)
  dir.filter (fun r =>
    r.managerId == some actor.id ||
    (match r.tlId with
     | some t => tlIds.contains t
     | none => false))

/-- Concrete directory: a manager (id 1) directly managing a USER-role
record (id 2), and a record (id 3) whose `tlId` points at record 2. -/
def c3dir : Directory :=
  [mkUser 1 Role.manager none none,
   mkUser 2 Role.user (some 1) none,
   mkUser 3 Role.user none (some 2)]

/-- C3 counterexample: the code's manager view differs from the claim's
formula — the code builds the tl-id set from ALL direct reports with no
role filter, so record 3 (whose tl link points at the user-role direct
report 2) is visible to the manager, while the claim's formula excludes
it. -/
theorem c3_role_filter_missing :
    visibleUsers c3dir (mkUser 1 Role.manager none none) ≠
      specVisibleManager c3dir (mkUser 1 Role.manager none none) := by
  decide

/-- C3 (amended): for a manager-role actor, a record is visible iff it is a
direct report or its `tlId` is the id of ANY direct report of the actor
(no role restriction on the middle hop). -/
theorem c3_manager_two_hop (dir : Directory) (m : UserRecord)
    (hm : m.role = Role.manager) (r : UserRecord) :
    r ∈ visibleUsers dir m ↔
      r ∈ dir ∧ (r.managerId = some m.id ∨
        ∃ t ∈ dir, t.managerId = some m.id ∧ r.tlId = some t.id) := by
  simp only [visibleUsers, hm]
  cases htl : r.tlId with
  | none => simp [List.mem_filter, htl]
  | some t =>
      simp [List.mem_filter, htl, List.mem_map, List.mem_filter]
      aesop

/-- C3 witness: the amended two-hop characterization applied to the
concrete directory — record 3 is visible to manager 1 because its tl link
points at direct report 2. -/
theorem c3_manager_two_hop_witness :
    mkUser 3 Role.user none (some 2) ∈
      visibleUsers c3dir (mkUser 1 Role.manager none none) :=
  (c3_manager_two_hop c3dir (mkUser 1 Role.manager none none) rfl
    (mkUser 3 Role.user none (some 2))).mpr (by decide)

/-- Concrete directory: an admin (id 1) and a master (id 2). -/
def c4dir : Directory :=
  [mkUser 1 Role.admin none none, mkUser 2 Role.master none none]

/-- C4 counterexample: an admin (id 1) fetching the master record (id 2)
through the single-record endpoint is answered with the record, not with an
insufficient-rank denial — the handler performs no permission check at
all. -/
theorem c4_admin_views_master :
    getUserById c4dir 2 = Except.ok (sanitize (mkUser 2 Role.master none none)) := rfl

/-- C4 (amended): the single-record endpoint applies no rank check —
whenever the target exists it is returned (password stripped) to any
authenticated actor; self-view in particular is always allowed. -/
theorem c4_get_user_no_check (dir : Directory) (i : Nat) (u : UserRecord)
    (h : findById dir i = some u) :
    getUserById dir i = Except.ok (sanitize u) := by
  simp [getUserById, h]

/-- C4 witness: the admin (id 1) viewing their own record is answered with
that record. -/
theorem c4_get_user_no_check_witness :
    getUserById c4dir 1 = Except.ok (sanitize (mkUser 1 Role.admin none none)) :=
  c4_get_user_no_check c4dir 1 (mkUser 1 Role.admin none none) rfl

/-- Concrete one-record directory: a single user-role record (id 1). -/
def c5dir : Directory := [mkUser 1 Role.user none none]

/-- Update body that only requests `role: master`. -/
def c5body : UpdateBody :=
  { firstName := none, lastName := none, email := none, phoneNum := none,
    role := some Role.master, department := none, position := none,
    tlId := none, managerId := none, status := none }

/-- C5 counterexample: the user-role actor (id 1) self-updates with
`role: master` and the stored role BECOMES `master`, although
`canManageRole user master` is false — a self-update skips both permission
checks, so the role (and likewise the `managerId`/`tlId` links) IS
self-editable with no re-check. -/
theorem c5_self_role_escalation :
    (updateUser c5dir 1 1 c5body).1 = [mkUser 1 Role.master none none] ∧
    canManageRole Role.user Role.master = false :=
  ⟨rfl, rfl⟩

/-- C5 (amended): on a self-update (`actorId = targetId`, record present)
the endpoint performs no permission re-check at all: every present body
field — `role`, `managerId` and `tlId` included — is written to the stored
record unconditionally, and the call succeeds. -/
theorem c5_self_update_unchecked (dir : Directory) (u : UserRecord)
    (h : findById dir u.id = some u) (b : UpdateBody) :
    (updateUser dir u.id u.id b).1 =
      dir.map (fun r => if r.id == u.id then applyUpdates r b else r) ∧
    (updateUser dir u.id u.id b).2 = Except.ok (sanitize (applyUpdates u b)) := by
  cases hr : b.role with
  | none => simp [updateUser, h, hr]
  | some newRole => simp [updateUser, h, hr]

/-- C5 witness: the amended statement at the concrete one-user directory
and the role-escalating body. -/
theorem c5_self_update_unchecked_witness :
    (updateUser c5dir (mkUser 1 Role.user none none).id
        (mkUser 1 Role.user none none).id c5body).1 =
      c5dir.map (fun r =>
        if r.id == (mkUser 1 Role.user none none).id then applyUpdates r c5body else r) ∧
    (updateUser c5dir (mkUser 1 Role.user none none).id
        (mkUser 1 Role.user none none).id c5body).2 =
      Except.ok (sanitize (applyUpdates (mkUser 1 Role.user none none) c5body)) :=
  c5_self_update_unchecked c5dir (mkUser 1 Role.user none none) rfl c5body

/-- Body for an unauthenticated sign-up call. -/
def c7sbody : SignUpBody :=
  { firstName := "A", lastName := "B", email := "a@b.c", password := "pw",
    phoneNum := "1" }

/-- C7 counterexample: `POST /api/SignUp` is reachable with NO authenticated
actor — invoked on the EMPTY directory, which contains no possible creator,
it still succeeds and inserts a record; so not every record is created
through the rank-checked privileged create operation. -/
theorem c7_signup_without_creator :
    (signUp id [] 1 c7sbody).1 =
      [{ id := 1, firstName := "A", lastName := "B", email := "a@b.c",
         password := "pw", phoneNum := "1", role := Role.user, tlId := none,
         managerId := none, status := Status.active, department := none,
         position := none }] ∧
    (signUp id [] 1 c7sbody).1 ≠ [] :=
  ⟨rfl, by decide⟩

/-- C7 (amended): records are inserted by exactly two operations — the
authenticated create endpoint, which succeeds only when the resolved actor
exists and the actor's role manages the requested role, and the
unauthenticated SignUp endpoint, which inserts only fresh records with the
schema default role `user` and null ownership links, with no creator
check. -/
theorem c7_creation_paths (hash : String → String) (dir : Directory) :
    (∀ actorId freshId b d2 p,
        createUser hash dir actorId freshId b = (d2, Except.ok p) →
        ∃ cu, findById dir actorId = some cu ∧ canManageRole cu.role b.role = true) ∧
    (∀ freshId b d2 p,
        signUp hash dir freshId b = (d2, Except.ok p) →
        ∀ r ∈ d2, r ∈ dir ∨
          (r.role = Role.user ∧ r.managerId = none ∧ r.tlId = none)) := by
  constructor
  · intro actorId freshId b d2 p h
    unfold createUser at h
    cases hc : findById dir actorId with
    | none => rw [hc] at h; simp at h
    | some cu =>
        rw [hc] at h
        cases hperm : canManageRole cu.role b.role with
        | true => exact ⟨cu, rfl, hperm⟩
        | false => simp [hperm] at h
  · intro freshId b d2 p h r hr
    unfold signUp at h
    split at h
    · simp at h
    · split at h
      · simp at h
      · injection h with h1 h2
        subst h1
        rcases List.mem_append.mp hr with h2 | h2
        · exact Or.inl h2
        · simp only [List.mem_singleton] at h2
          subst h2
          exact Or.inr ⟨rfl, rfl, rfl⟩

/-- Concrete directory holding just a master (id 1). -/
def c7dir : Directory := [mkUser 1 Role.master none none]

/-- Create body: a new admin record, requested by the master. -/
def c7cbody : CreateBody :=
  { firstName := "A", lastName := "B", email := "a", password := "pw",
    phoneNum := "1", role := Role.admin, department := none, position := none,
    tlId := none, managerId := none }

/-- The record the concrete create call inserts. -/
def c7new : UserRecord :=
  { id := 2, firstName := "A", lastName := "B", email := "a", password := "pw",
    phoneNum := "1", role := Role.admin, tlId := none, managerId := none,
    status := Status.active, department := none, position := none }

/-- C7 witness: the create branch of the amended statement applied to a
concrete successful call — the master (id 1) creating an admin. -/
theorem c7_creation_paths_witness :
    ∃ cu, findById c7dir 1 = some cu ∧ canManageRole cu.role Role.admin = true :=
  (c7_creation_paths id c7dir).1 1 2 c7cbody (c7dir ++ [c7new]) (sanitize c7new) rfl

/-- C8: the dependent check and the delete branches behave as claimed.
First, `hasDependents target` is true iff SOME record anywhere in the full
directory references the target as manager or tl (the query is global, not
scoped).  Then, for a call whose permission check passes: with zero
dependents the target is removed and the call succeeds; with at least one
dependent the call fails with the subordinates message and the directory
is unchanged. -/
theorem c8_delete_dependents (dir : Directory) (actorId targetId : Nat)
    (cu tu : UserRecord)
    (ha : findById dir actorId = some cu) (ht : findById dir targetId = some tu)
    (hperm : canManageRole cu.role tu.role = true) :
    (hasDependents dir targetId = true ↔
      ∃ r ∈ dir, r.managerId = some targetId ∨ r.tlId = some targetId) ∧
    (hasDependents dir targetId = false →
      deleteUser dir actorId targetId =
        (dir.filter (fun r => r.id != targetId), Except.ok "User deleted successfully")) ∧
    (hasDependents dir targetId = true →
      deleteUser dir actorId targetId =
        (dir, Except.error (ApiError.badRequest
          "Cannot delete user with subordinates. Reassign subordinates first."))) := by
  refine ⟨?_, ?_, ?_⟩
  · simp [hasDependents, List.any_eq_true]
    constructor
    · rintro ⟨r, hr, hc | hc⟩
      · exact ⟨r, hr, Or.inr hc⟩
      · exact ⟨r, hr, Or.inl hc⟩
    · rintro ⟨r, hr, hc | hc⟩
      · exact ⟨r, hr, Or.inr hc⟩
      · exact ⟨r, hr, Or.inl hc⟩
  · intro hdep
    simp [deleteUser, ha, ht, hperm, hdep]
  · intro hdep
    simp [deleteUser, ha, ht, hperm, hdep]

/-- Concrete directory: an admin (id 1), a user (id 2) who is team lead /
manager of nobody but is the stored manager of record 3, and a dependent
record (id 3) with `managerId = 2`. -/
def c8dir : Directory :=
  [mkUser 1 Role.admin none none,
   mkUser 2 Role.user none none,
   mkUser 3 Role.user (some 2) none]

/-- C8 witness: the theorem applied to the concrete directory with the
admin (id 1) deleting the user (id 2) who has dependent 3. -/
theorem c8_delete_dependents_witness :
    (hasDependents c8dir 2 = true ↔
      ∃ r ∈ c8dir, r.managerId = some 2 ∨ r.tlId = some 2) ∧
    (hasDependents c8dir 2 = false →
      deleteUser c8dir 1 2 =
        (c8dir.filter (fun r => r.id != 2), Except.ok "User deleted successfully")) ∧
    (hasDependents c8dir 2 = true →
      deleteUser c8dir 1 2 =
        (c8dir, Except.error (ApiError.badRequest
          "Cannot delete user with subordinates. Reassign subordinates first."))) :=
  c8_delete_dependents c8dir 1 2 (mkUser 1 Role.admin none none)
    (mkUser 2 Role.user none none) rfl rfl rfl

/-- Concrete 14-record directory carrying one actor of each role
(ids 1 to 5) plus four admins managed by the manager (id 2) and five
admins whose tl link points at the team lead (id 3). -/
def c9dir : Directory :=
  [mkUser 1 Role.admin none none,
   mkUser 2 Role.manager none none,
   mkUser 3 Role.tl none none,
   mkUser 4 Role.user none none,
   mkUser 5 Role.master none none,
   mkUser 6 Role.admin (some 2) none,
   mkUser 7 Role.admin (some 2) none,
   mkUser 8 Role.admin (some 2) none,
   mkUser 9 Role.admin (some 2) none,
   mkUser 10 Role.admin none (some 3),
   mkUser 11 Role.admin none (some 3),
   mkUser 12 Role.admin none (some 3),
   mkUser 13 Role.admin none (some 3),
   mkUser 14 Role.admin none (some 3)]

/-- C9 counterexample: in `c9dir` the view sizes are master 14, admin 3,
manager 4, tl 5, user 14 — every inner inequality of the claimed chain
fails (admin < manager < tl < user), and the user-role actor's view is the
whole directory, not empty.  Only the master top bound survives. -/
theorem c9_chain_fails :
    (visibleUsers c9dir (mkUser 5 Role.master none none)).length = 14 ∧
    (visibleUsers c9dir (mkUser 1 Role.admin none none)).length = 3 ∧
    (visibleUsers c9dir (mkUser 2 Role.manager none none)).length = 4 ∧
    (visibleUsers c9dir (mkUser 3 Role.tl none none)).length = 5 ∧
    (visibleUsers c9dir (mkUser 4 Role.user none none)).length = 14 ∧
    ¬((visibleUsers c9dir (mkUser 1 Role.admin none none)).length ≥
        (visibleUsers c9dir (mkUser 2 Role.manager none none)).length) ∧
    ¬((visibleUsers c9dir (mkUser 2 Role.manager none none)).length ≥
        (visibleUsers c9dir (mkUser 3 Role.tl none none)).length) ∧
    ¬((visibleUsers c9dir (mkUser 3 Role.tl none none)).length ≥
        (visibleUsers c9dir (mkUser 4 Role.user none none)).length) ∧
    (visibleUsers c9dir (mkUser 4 Role.user none none)).length ≠ 0 := by
  decide

/-- C9 (amended): for a fixed directory only the top of the claimed chain
holds — every actor's view size is bounded by the directory size, a
master-role actor sees the whole directory, and a user-role actor ALSO
sees the whole directory (the role filter has no `user` branch), so the
inner inequalities and the final `= 0` clause do not hold in general. -/
theorem c9_monotonic_amended (dir : Directory) (cu : UserRecord) :
    (visibleUsers dir cu).length ≤ dir.length ∧
    (cu.role = Role.master → visibleUsers dir cu = dir) ∧
    (cu.role = Role.user → visibleUsers dir cu = dir) := by
  refine ⟨?_, ?_, ?_⟩
  · cases h : cu.role <;>
      simp [visibleUsers, h, List.length_filter_le]
  · intro h; simp [visibleUsers, h]
  · intro h; simp [visibleUsers, h]

/-- C9 witness: the amended statement at the concrete directory for the
user-role actor — the bound holds and the user's view is all of `c9dir`. -/
theorem c9_monotonic_amended_witness :
    visibleUsers c9dir (mkUser 4 Role.user none none) = c9dir :=
  (c9_monotonic_amended c9dir (mkUser 4 Role.user none none)).2.2 rfl

/-- Directory states that differ only in stored password hashes:
pointwise, every field except `password` agrees. -/
def SamePublic (d1 d2 : Directory) : Prop :=
  List.Forall₂ (fun a b => sanitize a = sanitize b) d1 d2

/-- Password-agreeing directories have equal sanitized renderings. -/
theorem map_sanitize_of_samePublic {d1 d2 : Directory} (h : SamePublic d1 d2) :
    d1.map sanitize = d2.map sanitize := by
  induction h with
  | nil => rfl
  | cons hab htl ih => simp [hab, ih]

/-- Lookup by id commutes with sanitizing across password-agreeing
directories. -/
theorem findById_map_sanitize {d1 d2 : Directory} (h : SamePublic d1 d2) (i : Nat) :
    (findById d1 i).map sanitize = (findById d2 i).map sanitize := by
  induction h with
  | nil => rfl
  | @cons a b l1 l2 hab htl ih =>
      have hid : a.id = b.id := congrArg PublicUser.id hab
      unfold findById at ih ⊢
      by_cases hcase : (b.id == i) = true
      · have hcaseA : (a.id == i) = true := by rw [hid]; exact hcase
        rw [List.find?_cons_of_pos (p := fun r : UserRecord => r.id == i) l1 hcaseA,
          List.find?_cons_of_pos (p := fun r : UserRecord => r.id == i) l2 hcase]
        simp [hab]
      · have hcaseA : ¬(a.id == i) = true := by rw [hid]; exact hcase
        rw [List.find?_cons_of_neg (p := fun r : UserRecord => r.id == i) l1 hcaseA,
          List.find?_cons_of_neg (p := fun r : UserRecord => r.id == i) l2 hcase]
        exact ih

/-- Either both lookups miss, or both hit records agreeing on every
public field. -/
theorem findById_rel {d1 d2 : Directory} (h : SamePublic d1 d2) (i : Nat) :
    (findById d1 i = none ∧ findById d2 i = none) ∨
    (∃ u1 u2, findById d1 i = some u1 ∧ findById d2 i = some u2 ∧
      sanitize u1 = sanitize u2) := by
  have key := findById_map_sanitize h i
  cases h1 : findById d1 i with
  | none =>
      cases h2 : findById d2 i with
      | none => exact Or.inl ⟨rfl, rfl⟩
      | some u2 => rw [h1, h2] at key; simp at key
  | some u1 =>
      cases h2 : findById d2 i with
      | none => rw [h1, h2] at key; simp at key
      | some u2 =>
          rw [h1, h2] at key
          exact Or.inr ⟨u1, u2, rfl, rfl, by simpa using key⟩

/-- Filtering by a predicate on public fields commutes with sanitizing
across password-agreeing directories. -/
theorem filter_map_sanitize {d1 d2 : Directory} (h : SamePublic d1 d2)
    (q : PublicUser → Bool) :
    (d1.filter (fun r => q (sanitize r))).map sanitize =
      (d2.filter (fun r => q (sanitize r))).map sanitize := by
  induction h with
  | nil => rfl
  | @cons a b l1 l2 hab htl ih =>
      simp only [List.filter_cons]
      rw [hab]
      cases q (sanitize b) <;> simp [ih, hab]

/-- Extracting ids from a filtered directory factors through `sanitize`. -/
theorem map_id_eq_map_sanitize (d : Directory) (p : UserRecord → Bool) :
    (d.filter p).map (fun r => r.id) =
      ((d.filter p).map sanitize).map PublicUser.id := by
  rw [List.map_map]
  rfl

/-- Reduction of the view for a master-role actor: the whole collection. -/
theorem visibleUsers_master (dir : Directory) (u : UserRecord)
    (h : u.role = Role.master) : visibleUsers dir u = dir := by
  simp [visibleUsers, h]

/-- Reduction of the view for an admin-role actor: the role filter. -/
theorem visibleUsers_admin (dir : Directory) (u : UserRecord)
    (h : u.role = Role.admin) :
    visibleUsers dir u =
      dir.filter (fun r =>
        r.role == Role.manager || r.role == Role.tl || r.role == Role.user) := by
  simp [visibleUsers, h]

/-- Reduction of the view for a manager-role actor: the two-hop filter. -/
theorem visibleUsers_manager (dir : Directory) (u : UserRecord)
    (h : u.role = Role.manager) :
    visibleUsers dir u =
      dir.filter (fun r =>
        r.managerId == some u.id ||
        (match r.tlId with
         | some t =>
             ((dir.filter (fun s => s.managerId == some u.id)).map (·.id)).contains t
         | none => false)) := by
  simp [visibleUsers, h]

/-- Reduction of the view for a tl-role actor: the tl-link filter. -/
theorem visibleUsers_tl (dir : Directory) (u : UserRecord)
    (h : u.role = Role.tl) :
    visibleUsers dir u = dir.filter (fun r => r.tlId == some u.id) := by
  simp [visibleUsers, h]

/-- Reduction of the view for a user-role actor: the whole collection,
since the query-building chain has no branch for role `user`. -/
theorem visibleUsers_user (dir : Directory) (u : UserRecord)
    (h : u.role = Role.user) : visibleUsers dir u = dir := by
  simp [visibleUsers, h]

/-- The scoped directory view depends only on public fields: across
password-agreeing directories and actors agreeing on public fields, the
sanitized views coincide. -/
theorem visibleUsers_map_sanitize {d1 d2 : Directory} (h : SamePublic d1 d2)
    {u1 u2 : UserRecord} (hu : sanitize u1 = sanitize u2) :
    (visibleUsers d1 u1).map sanitize = (visibleUsers d2 u2).map sanitize := by
  have hrole : u1.role = u2.role := congrArg PublicUser.role hu
  have hid : u1.id = u2.id := congrArg PublicUser.id hu
  cases hr : u2.role with
  | master =>
      rw [visibleUsers_master d1 u1 (hrole.trans hr), visibleUsers_master d2 u2 hr]
      exact map_sanitize_of_samePublic h
  | admin =>
      rw [visibleUsers_admin d1 u1 (hrole.trans hr), visibleUsers_admin d2 u2 hr]
      exact filter_map_sanitize h
        (fun pu => pu.role == Role.manager || pu.role == Role.tl || pu.role == Role.user)
  | manager =>
      rw [visibleUsers_manager d1 u1 (hrole.trans hr), visibleUsers_manager d2 u2 hr, hid]
      have hfil :
          (d1.filter (fun s => s.managerId == some u2.id)).map (·.id) =
            (d2.filter (fun s => s.managerId == some u2.id)).map (·.id) := by
        rw [map_id_eq_map_sanitize, map_id_eq_map_sanitize]
        exact congrArg (List.map PublicUser.id)
          (filter_map_sanitize h (fun pu => pu.managerId == some u2.id))
      simp only [hfil]
      exact filter_map_sanitize h
        (fun pu => pu.managerId == some u2.id ||
          (match pu.tlId with
           | some t =>
               ((d2.filter (fun s => s.managerId == some u2.id)).map (·.id)).contains t
           | none => false))
  | tl =>
      rw [visibleUsers_tl d1 u1 (hrole.trans hr), visibleUsers_tl d2 u2 hr, hid]
      exact filter_map_sanitize h (fun pu => pu.tlId == some u2.id)
  | user =>
      rw [visibleUsers_user d1 u1 (hrole.trans hr), visibleUsers_user d2 u2 hr]
      exact map_sanitize_of_samePublic h

/-- Applying the same update body to records agreeing on every public
field yields records agreeing on every public field. -/
theorem sanitize_applyUpdates {t1 t2 : UserRecord}
    (ht : sanitize t1 = sanitize t2) (b : UpdateBody) :
    sanitize (applyUpdates t1 b) = sanitize (applyUpdates t2 b) := by
  cases t1
  cases t2
  simp only [sanitize, PublicUser.mk.injEq] at ht
  obtain ⟨e1, e2, e3, e4, e5, e6, e7, e8, e9, e10, e11⟩ := ht
  subst e1; subst e2; subst e3; subst e4; subst e5; subst e6
  subst e7; subst e8; subst e9; subst e10; subst e11
  rfl

/-- C10: the four record-returning operations never leak the stored
password hash — two directory states that agree on every field except
passwords are answered identically by the current-user fetch, the
directory listing, the single-record fetch and the update endpoint. -/
theorem c10_password_noninterference (d1 d2 : Directory) (h : SamePublic d1 d2)
    (actorId targetId : Nat) (b : UpdateBody) :
    getMe d1 actorId = getMe d2 actorId ∧
    getUsers d1 actorId = getUsers d2 actorId ∧
    getUserById d1 targetId = getUserById d2 targetId ∧
    (updateUser d1 actorId targetId b).2 = (updateUser d2 actorId targetId b).2 := by
  refine ⟨?_, ?_, ?_, ?_⟩
  · rcases findById_rel h actorId with ⟨h1, h2⟩ | ⟨v1, v2, h1, h2, hv⟩
    · simp [getMe, h1, h2]
    · simp [getMe, h1, h2, hv]
  · rcases findById_rel h actorId with ⟨h1, h2⟩ | ⟨v1, v2, h1, h2, hv⟩
    · simp [getUsers, h1, h2]
    · simp only [getUsers, h1, h2]
      rw [visibleUsers_map_sanitize h hv]
  · rcases findById_rel h targetId with ⟨h1, h2⟩ | ⟨v1, v2, h1, h2, hv⟩
    · simp [getUserById, h1, h2]
    · simp [getUserById, h1, h2, hv]
  · rcases findById_rel h actorId with ⟨h1, h2⟩ | ⟨v1, v2, h1, h2, hv⟩
    · simp [updateUser, h1, h2]
    · rcases findById_rel h targetId with ⟨g1, g2⟩ | ⟨w1, w2, g1, g2, hw⟩
      · simp [updateUser, h1, h2, g1, g2]
      · have hvr : v1.role = v2.role := congrArg PublicUser.role hv
        have hwr : w1.role = w2.role := congrArg PublicUser.role hw
        simp only [updateUser, h1, h2, g1, g2]
        rw [hvr, hwr, sanitize_applyUpdates hw b]
        split_ifs <;> rfl

/-- Concrete one-admin directory. -/
def c10dirA : Directory := [mkUser 1 Role.admin none none]

/-- The same directory with a different stored password hash. -/
def c10dirB : Directory :=
  [{ mkUser 1 Role.admin none none with password := "other" }]

/-- Update body that changes nothing. -/
def c10body : UpdateBody :=
  { firstName := none, lastName := none, email := none, phoneNum := none,
    role := none, department := none, position := none,
    tlId := none, managerId := none, status := none }

/-- C10 witness: the noninterference statement at two concrete directories
differing exactly in record 1's password. -/
theorem c10_password_noninterference_witness :
    getMe c10dirA 1 = getMe c10dirB 1 ∧
    getUsers c10dirA 1 = getUsers c10dirB 1 ∧
    getUserById c10dirA 1 = getUserById c10dirB 1 ∧
    (updateUser c10dirA 1 1 c10body).2 = (updateUser c10dirB 1 1 c10body).2 :=
  c10_password_noninterference c10dirA c10dirB
    (List.Forall₂.cons rfl List.Forall₂.nil) 1 1 c10body
